import Mathlib

/-!
# Verification of the X-O matchmaking and session server

Shallow embedding of `server/server.py` and `server/serverExceptions.py`
(a TCP tic-tac-toe matchmaking/session server).  Sockets are modelled as
pure values; each I/O interaction point of the code (what `recv` returns,
what the external game engine reports) is an oracle input, and the
observable behaviour of the server is the trace of actions (sends, closes,
engine calls) it produces.  The game engine (`logic.logic.TicTacToe`) is an
external collaborator: its reaction to a move is an oracle input
(`MoveOutcome`), and the session's view of it is the `GameView` record
(turn owner, board text, symbol map, winner value), exactly the fields
`handle_game` reads.
-/

namespace XO

/-! ## Python string primitives

The server calls `str.upper`, `str.strip`, `str.split` (no separator) and
`str.isdigit` on received text.  These are modelled here for ASCII text,
which is all the protocol uses. -/

/-- Model of Python's `str.upper` on a single ASCII character. -/
def upChar (c : Char) : Char :=
  if 97 ≤ c.toNat ∧ c.toNat ≤ 122 then Char.ofNat (c.toNat - 32) else c

/-- Model of Python's `str.upper`. -/
def pyUpper (s : String) : String :=
  String.mk (s.data.map upChar)

/-- Model of Python's `str.isdigit` on one character (ASCII digits). -/
def digitChar (c : Char) : Bool :=
  48 ≤ c.toNat && c.toNat ≤ 57

/-- Model of Python's `str.isdigit`: nonempty and every character a digit. -/
def pyIsDigit (s : String) : Bool :=
  !s.data.isEmpty && s.data.all digitChar

/-- ASCII whitespace as recognized by Python's `str.strip`/`str.split`:
space, tab, newline, vertical tab, form feed, carriage return. -/
def wsChar (c : Char) : Bool :=
  c.toNat = 32 || c.toNat = 9 || c.toNat = 10 || c.toNat = 11 ||
    c.toNat = 12 || c.toNat = 13

/-- Model of Python's `str.strip`: drop leading and trailing whitespace. -/
def pyStrip (s : String) : String :=
  String.mk (((s.data.dropWhile wsChar).reverse.dropWhile wsChar).reverse)

/-- Model of Python's `str.startswith`. -/
def pyStartsWith (p s : String) : Bool :=
  p.data.isPrefixOf s.data

/-- Helper for `pySplit`: split a character list on whitespace runs,
accumulating the current (reversed) word. -/
def wordsAux : List Char → List Char → List (List Char)
  | [], acc => if acc.isEmpty then [] else [acc.reverse]
  | c :: cs, acc =>
    if wsChar c then
      if acc.isEmpty then wordsAux cs [] else acc.reverse :: wordsAux cs []
    else wordsAux cs (c :: acc)

/-- Model of Python's no-argument `str.split`: whitespace-separated words,
empty strings discarded. -/
def pySplit (s : String) : List String :=
  (wordsAux s.data []).map String.mk

/-! ## Failure objects (`server/serverExceptions.py`)

Each carries the offending player's remote-endpoint identity (rendered as
a string) and a human-readable cause, mirroring the four exception classes.
-/

/-- The four failure signals of `serverExceptions.py`, each carrying the
offending endpoint identity and a message. -/
inductive ServerError where
  | playerDisconnected (player_addr msg : String)
  | playerQuit (player_addr msg : String)
  | invalidMessage (player_addr msg : String)
  | timeoutWaitingPlayer (player_addr msg : String)
deriving DecidableEq, Repr

/-! ## Transport primitive: `recv_with_timeout` (server.py lines 46-82)

A connection is its peer address plus its current read-deadline setting
(`sock.settimeout` state).  What the underlying `sock.recv` call does is
an oracle input `RecvRaw`: it may deliver bytes (possibly zero on orderly
close), time out, or fail with some other I/O error (which also covers a
decode failure, caught by the same generic handler). -/

/-- A connection: stable remote-endpoint identity plus the current read
deadline (`None` = block forever). -/
structure Conn where
  addr : String
  deadline : Option Nat
deriving DecidableEq, Repr

/-- Oracle outcome of one underlying `sock.recv` call. -/
inductive RecvRaw where
  | bytes (data : List Char)
  | timedOut
  | ioError (msg : String)
deriving DecidableEq, Repr

/-- `BUFFER`, `MOVE_TIMEOUT_SECONDS` from server.py. -/
def MOVE_TIMEOUT_SECONDS : Nat := 30

/-- `recv_with_timeout(sock, timeout_seconds)` (server.py 46-82): sets the
deadline, performs one receive, translates the outcome, and — via the
`finally` block — always clears the deadline before returning.  Returns
the translated result together with the connection's final state. -/
def recv_with_timeout (sock : Conn) (timeout_seconds : Nat) (raw : RecvRaw) :
    Except ServerError String × Conn :=
  let r : Except ServerError String :=
    match raw with
    | .bytes [] => .error (.playerDisconnected sock.addr "client closed connection")
    | .bytes data => .ok (pyStrip (String.mk data))
    | .timedOut => .error (.timeoutWaitingPlayer sock.addr
        ("Timed out after " ++ toString timeout_seconds ++ " seconds"))
    | .ioError m => .error (.playerDisconnected sock.addr ("recv failed: " ++ m))
  (r, { sock with deadline := none })

/-! ## Session model (`handle_game`, server.py lines 85-234)

The two connections of a session are designated `p1`/`p2`; `addr` maps
each to its stable remote-endpoint identity (`getpeername`).  The game
engine is external: the session reads from it a `GameView` (turn owner,
rendered board, symbol map, winner value — exactly what `handle_game`
accesses) and `make_move`'s reaction is an oracle `MoveOutcome`.  The
observable behaviour is a trace of `Act`ions. -/

/-- The two connection slots of one session. -/
inductive Player where
  | p1
  | p2
deriving DecidableEq, Repr

/-- The other connection of the pairing. -/
def Player.other : Player → Player
  | .p1 => .p2
  | .p2 => .p1

/-- The session's view of the external game engine: `game.turn`,
`game.print_board()`, `game.symbols[·]`, `game.winner` (with Python's
falsy `None`/absent modelled as `none`). -/
structure GameView where
  turn : Player
  board : String
  symbols : Player → String
  winner : Option String

/-- Oracle outcome of one `game.make_move(current, move_arg)` call:
state accepted (with the engine's updated view), one of the four inline
illegal-move errors (carrying the exception type name and text), an
unrecognized-player error, or a game-over error. -/
inductive MoveOutcome where
  | accepted (g : GameView)
  | illegal (name msg : String)
  | notRecognized (msg : String)
  | gameOver (msg : String)

/-- Observable actions of a session worker: a successful send of `msg` to
a player's socket, a move handed to the engine, and a close attempt on a
player's socket. -/
inductive Act where
  | send (p : Player) (msg : String)
  | engineMove (p : Player) (arg : String)
  | close (p : Player)
deriving DecidableEq, Repr

/-- Result of parsing one received message (server.py 121-134). -/
inductive Parsed where
  | quit
  | malformedMove
  | moveArg (arg : String)
  | badFormat
deriving DecidableEq, Repr

/-- The reply-parsing logic of the move loop (server.py 121-134):
case-insensitive `QUIT`; `MOVE <token>` needing exactly two
whitespace-separated tokens with an all-digit second token; a bare
all-digit token; anything else is a format error. -/
def parseMsg (move_text : String) : Parsed :=
  if pyUpper move_text = "QUIT" then .quit
  else if pyStartsWith "MOVE " (pyUpper move_text) then
    let parts := pySplit move_text
    if parts.length ≠ 2 ∨ pyIsDigit (parts.getD 1 "") = false then .malformedMove
    else .moveArg (parts.getD 1 "")
  else if pyIsDigit move_text then .moveArg move_text
  else .badFormat

/-- The loop-level `except` handlers of `handle_game` (server.py 179-213)
for the four failure signals: the three terminal ones notify the
surviving player (`p2` if the failure's endpoint equals `p1`'s address,
else `p1`) and break; `InvalidMessageError` notifies the offending
(current) player inline and continues.  Returns the actions performed and
whether the loop breaks. -/
def handleLoopErr (addr : Player → String) (current : Player) :
    ServerError → List Act × Bool
  | .timeoutWaitingPlayer a _ =>
    ([.send (if a = addr .p1 then .p2 else .p1) "OPPONENT_TIMEOUT - you win\n"], true)
  | .playerQuit a _ =>
    ([.send (if a = addr .p1 then .p2 else .p1) "OPPONENT_QUIT - you win\n"], true)
  | .playerDisconnected a _ =>
    ([.send (if a = addr .p1 then .p2 else .p1) "OPPONENT_DISCONNECTED - you win\n"], true)
  | .invalidMessage a m =>
    ([.send current ("INVALID_MESSAGE: " ++ m ++ ": " ++ a ++ "\n")], false)

/-- Oracle input for one iteration of the move loop: either a normal
iteration (what `recv` yields for the current player, and what the engine
would report if a move is applied), or an unexpected internal exception
somewhere in the iteration (the catch-all `except Exception` path). -/
inductive IterEv where
  | normal (raw : RecvRaw) (outcome : MoveOutcome)
  | crash (msg : String)

/-- The prelude of every loop iteration (server.py 108-116): board
broadcast to both players, move prompt to the current player, waiting
notice to the other. -/
def promptActs (g : GameView) : List Act :=
  [.send .p1 (g.board ++ "\n"), .send .p2 (g.board ++ "\n"),
   .send g.turn "Your move (0-8) or QUIT:\n",
   .send g.turn.other "Waiting for opponent...\n"]

/-- The post-move board broadcast (server.py 157-159). -/
def postBoardActs (g2 : GameView) : List Act :=
  [.send .p1 (g2.board ++ "\n"), .send .p2 (g2.board ++ "\n")]

/-- The decisive-outcome notices (server.py 168-176): each player is told
`You win!` or `You lose!` according to whether its own symbol equals the
winner value; `winNotices pw` is that list when `pw` is the player whose
symbol matches and the other player's does not. -/
def winNotices (pw : Player) : List Act :=
  match pw with
  | .p1 => [.send .p1 "You win!\n", .send .p2 "You lose!\n"]
  | .p2 => [.send .p1 "You lose!\n", .send .p2 "You win!\n"]

/-- One iteration of the `while True` loop of `handle_game` (server.py
105-226): broadcast the board, prompt, receive with timeout, parse,
apply the move, broadcast, check the winner; failures are routed through
the loop-level handlers.  Returns the actions of the iteration and
`some g` to continue with view `g`, or `none` when the loop breaks. -/
def iterate (addr : Player → String) (g : GameView) :
    IterEv → List Act × Option GameView
  | .crash m =>
    ([.send .p1 ("Server error: " ++ m ++ "\n"),
      .send .p2 ("Server error: " ++ m ++ "\n")], none)
  | .normal raw outcome =>
    let current := g.turn
    let pre : List Act := promptActs g
    match (recv_with_timeout ⟨addr current, none⟩ MOVE_TIMEOUT_SECONDS raw).1 with
    | .error e =>
      let r := handleLoopErr addr current e
      (pre ++ r.1, if r.2 then none else some g)
    | .ok move_text =>
      match parseMsg move_text with
      | .quit =>
        let r := handleLoopErr addr current (.playerQuit (addr current) "Player quit")
        (pre ++ r.1, if r.2 then none else some g)
      | .malformedMove =>
        let r := handleLoopErr addr current
          (.invalidMessage (addr current) ("Malformed MOVE: " ++ move_text))
        (pre ++ r.1, if r.2 then none else some g)
      | .badFormat =>
        (pre ++ [.send current ("Invalid move format: " ++ move_text ++ "\n")], some g)
      | .moveArg arg =>
        match outcome with
        | .illegal name msg =>
          (pre ++ [.engineMove current arg,
            .send current ("ERROR: " ++ name ++ ": " ++ msg ++ "\n")], some g)
        | .notRecognized msg =>
          (pre ++ [.engineMove current arg,
            .send current ("ERROR: Player not recognized: " ++ msg ++ "\n")], none)
        | .gameOver msg =>
          (pre ++ [.engineMove current arg,
            .send .p1 (g.board ++ "\n"), .send .p1 ("GAME OVER: " ++ msg ++ "\n"),
            .send .p2 (g.board ++ "\n"), .send .p2 ("GAME OVER: " ++ msg ++ "\n")], none)
        | .accepted g2 =>
          let post : List Act := postBoardActs g2
          match g2.winner with
          | none => (pre ++ [.engineMove current arg] ++ post, some g2)
          | some w =>
            if w = "Draw" then
              (pre ++ [.engineMove current arg] ++ post ++
                [.send .p1 "Game over! It's a draw.\n",
                 .send .p2 "Game over! It's a draw.\n"], none)
            else
              (pre ++ [.engineMove current arg] ++ post ++
                [.send .p1 (if g2.symbols .p1 = w then "You win!\n" else "You lose!\n"),
                 .send .p2 (if g2.symbols .p2 = w then "You win!\n" else "You lose!\n")],
               none)

/-- The `while True` move loop, driven by a list of iteration oracles.
Returns the accumulated action trace and `none` when the loop broke
(session over), or `some g` when the supplied events were exhausted with
the session still live in view `g`. -/
def loopGame (addr : Player → String) : GameView → List IterEv → List Act × Option GameView
  | g, [] => ([], some g)
  | g, e :: rest =>
    match iterate addr g e with
    | (acts, none) => (acts, none)
    | (acts, some g2) =>
      let r := loopGame addr g2 rest
      (acts ++ r.1, r.2)

/-- Oracle for the one-time greeting (server.py 91-103): both `safe_send`
calls succeed, or the first (to `p1`) fails, or the second (to `p2`)
fails with `PlayerDisconnectedError`. -/
inductive GreetEv where
  | ok
  | failFirst
  | failSecond

/-- The greeting text `"Game start! You are <symbol>"`. -/
def startMsg (g : GameView) (p : Player) : String :=
  "Game start! You are " ++ g.symbols p ++ "\n"

/-- The successful greeting actions (server.py 91-92). -/
def startActs (g : GameView) : List Act :=
  [.send .p1 (startMsg g .p1), .send .p2 (startMsg g .p2)]

/-- `handle_game(p1, p2)` (server.py 85-234): greet both players (a
disconnect here closes both connections and returns at once), then run
the move loop, and when the loop exits close both connections, each close
attempt wrapped so a failure cannot prevent the other.  The `Bool` is
true when the session terminated within the supplied events. -/
def handle_game (addr : Player → String) (g : GameView) (greet : GreetEv)
    (evs : List IterEv) : List Act × Bool :=
  match greet with
  | .failFirst => ([.close .p1, .close .p2], true)
  | .failSecond => ([.send .p1 (startMsg g .p1), .close .p1, .close .p2], true)
  | .ok =>
    match loopGame addr g evs with
    | (acts, none) => (startActs g ++ acts ++ [.close .p1, .close .p2], true)
    | (acts, some _) => (startActs g ++ acts, false)

/-! ## Matchmaking queue (`client_thread`, server.py 237-250)

`clients_waiting` with its single lock; `offer` is the whole locked
critical section (append, then pop the two oldest and start a session if
the queue reached two). -/

/-- The locked append-and-maybe-pop-pair critical section (server.py
245-250): append `conn`; if the queue now holds at least two, pop the two
oldest in FIFO order and start one session with them in removal order.
Returns the new queue and the pair handed to a session, if any. -/
def offer {α : Type} (clients_waiting : List α) (conn : α) :
    List α × Option (α × α) :=
  let q := clients_waiting ++ [conn]
  if 2 ≤ q.length then
    match q with
    | a :: b :: rest => (rest, some (a, b))
    | _ => (q, none)
  else (q, none)

/-- Oracle for `conn.send` of the welcome banner (server.py 240). -/
inductive WelcomeEv where
  | ok
  | fail

/-- `client_thread(conn, addr)` (server.py 237-250): send the welcome
banner; on failure close the connection and return without touching the
queue; otherwise run the locked `offer`.  Returns the queue after the
call, the pair handed to a new session (if any), and whether `conn` was
closed by this path. -/
def client_thread {α : Type} (clients_waiting : List α) (conn : α)
    (w : WelcomeEv) : List α × Option (α × α) × Bool :=
  match w with
  | .fail => (clients_waiting, none, true)
  | .ok =>
    let r := offer clients_waiting conn
    (r.1, r.2, false)

/-- Run `offer` for a sequence of arriving connections from a given
queue, accumulating the pairs handed to sessions. -/
def offerFrom {α : Type} : List α → List (α × α) → List α → List α × List (α × α)
  | q, ss, [] => (q, ss)
  | q, ss, c :: cs =>
    let r := offer q c
    offerFrom r.1 (ss ++ r.2.toList) cs

/-- All arrivals offered in order to an initially empty queue. -/
def offerAll {α : Type} (arrivals : List α) : List α × List (α × α) :=
  offerFrom [] [] arrivals

/-- Consecutive disjoint pairs of a list, in order. -/
def pairUp {α : Type} : List α → List (α × α)
  | a :: b :: rest => (a, b) :: pairUp rest
  | _ => []

/-- What is left after removing consecutive disjoint pairs: `[]` for an
even-length list, the last element otherwise. -/
def leftover {α : Type} : List α → List α
  | _ :: _ :: rest => leftover rest
  | l => l

/-! ## Concrete fixtures for witness instantiations -/

/-- A concrete endpoint map (rendered peernames) for the two players. -/
def addr0 : Player → String
  | .p1 => "('127.0.0.1', 50001)"
  | .p2 => "('127.0.0.1', 50002)"

/-- A concrete live game view. -/
def view0 : GameView where
  turn := .p1
  board := "b0"
  symbols := fun p => match p with | .p1 => "X" | .p2 => "O"
  winner := none

/-- A concrete game view after a decisive winning move. -/
def view1 : GameView where
  turn := .p2
  board := "b1"
  symbols := fun p => match p with | .p1 => "X" | .p2 => "O"
  winner := some "X"

/-- A concrete game view after a drawing move. -/
def viewD : GameView where
  turn := .p2
  board := "b2"
  symbols := fun p => match p with | .p1 => "X" | .p2 => "O"
  winner := some "Draw"

/-! ## Helper lemmas -/

lemma digitChar_iff (c : Char) : digitChar c = true ↔ 48 ≤ c.toNat ∧ c.toNat ≤ 57 := by
  simp [digitChar]

lemma upChar_of_digit (c : Char) (h : digitChar c = true) : upChar c = c := by
  rw [digitChar_iff] at h
  unfold upChar
  rw [if_neg]
  omega

lemma wsChar_of_digit (c : Char) (h : digitChar c = true) : wsChar c = false := by
  rw [digitChar_iff] at h
  simp [wsChar]
  omega

lemma pyIsDigit_iff (s : String) :
    pyIsDigit s = true ↔ s.data ≠ [] ∧ ∀ c ∈ s.data, digitChar c = true := by
  simp [pyIsDigit, List.all_eq_true, List.isEmpty_iff]

lemma dropWhile_ws_of_digits (l : List Char) (h : ∀ c ∈ l, digitChar c = true) :
    l.dropWhile wsChar = l := by
  cases l with
  | nil => rfl
  | cons a t =>
    have ha : wsChar a = false := wsChar_of_digit a (h a (List.mem_cons_self a t))
    simp [List.dropWhile_cons, ha]

lemma pyStrip_of_digits (s : String) (h : pyIsDigit s = true) : pyStrip s = s := by
  obtain ⟨-, hall⟩ := (pyIsDigit_iff s).mp h
  unfold pyStrip
  rw [dropWhile_ws_of_digits _ hall,
    dropWhile_ws_of_digits _ (fun c hc => hall c (List.mem_reverse.mp hc)),
    List.reverse_reverse]

lemma pyUpper_ne_quit_of_digits (s : String) (h : pyIsDigit s = true) :
    pyUpper s ≠ "QUIT" := by
  obtain ⟨hne, hall⟩ := (pyIsDigit_iff s).mp h
  intro hq
  have hd : s.data.map upChar = ['Q', 'U', 'I', 'T'] := congrArg String.data hq
  cases hl : s.data with
  | nil => exact hne hl
  | cons c t =>
    rw [hl] at hd
    have hc : digitChar c = true := hall c (hl ▸ List.mem_cons_self c t)
    have hcQ : c = 'Q' := by
      have := List.head_eq_of_cons_eq hd
      rwa [upChar_of_digit c hc] at this
    rw [hcQ] at hc
    exact absurd hc (by decide)

lemma not_startsWith_move_of_digits (s : String) (h : pyIsDigit s = true) :
    pyStartsWith "MOVE " (pyUpper s) = false := by
  obtain ⟨hne, hall⟩ := (pyIsDigit_iff s).mp h
  cases hl : s.data with
  | nil => exact absurd hl hne
  | cons c t =>
    have hc : digitChar c = true := hall c (hl ▸ List.mem_cons_self c t)
    have hcM : ('M' == upChar c) = false := by
      rw [upChar_of_digit c hc]
      rw [digitChar_iff] at hc
      simp only [beq_eq_false_iff_ne, ne_eq]
      intro e
      rw [← e] at hc
      simp at hc
    show List.isPrefixOf ("MOVE ".data) ((pyUpper s).data) = false
    have : (pyUpper s).data = upChar c :: t.map upChar := by
      show s.data.map upChar = _
      rw [hl]
      rfl
    rw [this]
    show List.isPrefixOf ('M' :: "OVE ".data) (upChar c :: t.map upChar) = false
    simp [List.isPrefixOf, hcM]

lemma parseMsg_of_digits (s : String) (h : pyIsDigit s = true) :
    parseMsg s = .moveArg s := by
  simp [parseMsg, pyUpper_ne_quit_of_digits s h, not_startsWith_move_of_digits s h, h]

lemma remaining_eq_other (addr : Player → String) (h : addr .p1 ≠ addr .p2)
    (p : Player) :
    (if addr p = addr .p1 then Player.p2 else Player.p1) = p.other := by
  cases p with
  | p1 => simp [Player.other]
  | p2 =>
    rw [if_neg (fun e => h e.symm)]
    rfl

lemma loopGame_nil (addr : Player → String) (g : GameView) :
    loopGame addr g [] = ([], some g) := rfl

lemma loopGame_cons (addr : Player → String) (g : GameView) (e : IterEv)
    (rest : List IterEv) (a : List Act) (g2 : GameView)
    (hi : iterate addr g e = (a, some g2)) :
    loopGame addr g (e :: rest) =
      (a ++ (loopGame addr g2 rest).1, (loopGame addr g2 rest).2) := by
  rw [loopGame, hi]

lemma loopGame_cons_halt (addr : Player → String) (g : GameView) (e : IterEv)
    (rest : List IterEv) (a : List Act)
    (hi : iterate addr g e = (a, none)) :
    loopGame addr g (e :: rest) = (a, none) := by
  rw [loopGame, hi]

lemma loopGame_append_live (addr : Player → String) (g : GameView)
    (xs : List IterEv) :
    ∀ {acts : List Act} {g2 : GameView}, loopGame addr g xs = (acts, some g2) →
    ∀ ys, loopGame addr g (xs ++ ys) =
      (acts ++ (loopGame addr g2 ys).1, (loopGame addr g2 ys).2) := by
  induction xs generalizing g with
  | nil =>
    intro acts g2 h ys
    rw [loopGame_nil] at h
    injection h with h1 h2
    injection h2 with h2
    subst h1
    subst h2
    simp
  | cons e xs ih =>
    intro acts g2 h ys
    rcases hi : iterate addr g e with ⟨a, r⟩
    cases r with
    | none =>
      rw [loopGame_cons_halt addr g e xs a hi] at h
      exact absurd (congrArg Prod.snd h) (by simp)
    | some g3 =>
      rw [loopGame_cons addr g e xs a g3 hi] at h
      rcases hx : loopGame addr g3 xs with ⟨a2, r2⟩
      rw [hx] at h
      injection h with h1 h2
      subst h1
      replace h2 : r2 = some g2 := h2
      subst h2
      rw [List.cons_append, loopGame_cons addr g e (xs ++ ys) a g3 hi, ih g3 hx ys]
      simp

lemma iterate_timeout_eq (addr : Player → String) (h : addr .p1 ≠ addr .p2)
    (g : GameView) (o : MoveOutcome) :
    iterate addr g (.normal .timedOut o) =
      (promptActs g ++ [.send g.turn.other "OPPONENT_TIMEOUT - you win\n"], none) := by
  simp [iterate, recv_with_timeout, handleLoopErr, remaining_eq_other addr h g.turn]

lemma iterate_ioError_eq (addr : Player → String) (h : addr .p1 ≠ addr .p2)
    (g : GameView) (o : MoveOutcome) (m : String) :
    iterate addr g (.normal (.ioError m) o) =
      (promptActs g ++ [.send g.turn.other "OPPONENT_DISCONNECTED - you win\n"], none) := by
  simp [iterate, recv_with_timeout, handleLoopErr, remaining_eq_other addr h g.turn]

lemma iterate_closed_eq (addr : Player → String) (h : addr .p1 ≠ addr .p2)
    (g : GameView) (o : MoveOutcome) :
    iterate addr g (.normal (.bytes []) o) =
      (promptActs g ++ [.send g.turn.other "OPPONENT_DISCONNECTED - you win\n"], none) := by
  simp [iterate, recv_with_timeout, handleLoopErr, remaining_eq_other addr h g.turn]

lemma iterate_quit_eq (addr : Player → String) (h : addr .p1 ≠ addr .p2)
    (g : GameView) (o : MoveOutcome) (d : List Char) (hne : d ≠ [])
    (hq : pyUpper (pyStrip (String.mk d)) = "QUIT") :
    iterate addr g (.normal (.bytes d) o) =
      (promptActs g ++ [.send g.turn.other "OPPONENT_QUIT - you win\n"], none) := by
  cases d with
  | nil => exact absurd rfl hne
  | cons c cs =>
    simp [iterate, recv_with_timeout, parseMsg, hq, handleLoopErr,
      remaining_eq_other addr h g.turn]

lemma parseMsg_malformed (s : String) (hnq : pyUpper s ≠ "QUIT")
    (hm : pyStartsWith "MOVE " (pyUpper s) = true)
    (hbad : (pySplit s).length ≠ 2 ∨ pyIsDigit ((pySplit s).getD 1 "") = false) :
    parseMsg s = .malformedMove := by
  unfold parseMsg
  rw [if_neg hnq, if_pos hm, if_pos hbad]

lemma iterate_malformed_eq (addr : Player → String) (g : GameView)
    (o : MoveOutcome) (d : List Char) (hne : d ≠ []) (s : String)
    (hd : pyStrip (String.mk d) = s) (hpm : parseMsg s = .malformedMove) :
    iterate addr g (.normal (.bytes d) o) =
      (promptActs g ++
        [.send g.turn ("INVALID_MESSAGE: " ++ ("Malformed MOVE: " ++ s) ++ ": " ++
          addr g.turn ++ "\n")], some g) := by
  cases d with
  | nil => exact absurd rfl hne
  | cons c cs =>
    simp [iterate, recv_with_timeout, hd, hpm, handleLoopErr]

lemma iterate_badFormat_eq (addr : Player → String) (g : GameView)
    (o : MoveOutcome) (d : List Char) (hne : d ≠ []) (s : String)
    (hd : pyStrip (String.mk d) = s) (hpf : parseMsg s = .badFormat) :
    iterate addr g (.normal (.bytes d) o) =
      (promptActs g ++ [.send g.turn ("Invalid move format: " ++ s ++ "\n")],
        some g) := by
  cases d with
  | nil => exact absurd rfl hne
  | cons c cs =>
    simp [iterate, recv_with_timeout, hd, hpf]

lemma iterate_digit_illegal_eq (addr : Player → String) (g : GameView)
    (s : String) (hdig : pyIsDigit s = true) (name msg : String) :
    iterate addr g (.normal (.bytes s.data) (.illegal name msg)) =
      (promptActs g ++ [.engineMove g.turn s,
        .send g.turn ("ERROR: " ++ name ++ ": " ++ msg ++ "\n")], some g) := by
  have hne : s.data ≠ [] := ((pyIsDigit_iff s).mp hdig).1
  cases hd : s.data with
  | nil => exact absurd hd hne
  | cons c cs =>
    have hstr : pyStrip (String.mk (c :: cs)) = s := by
      rw [← hd]
      exact pyStrip_of_digits s hdig
    simp [iterate, recv_with_timeout, hstr, parseMsg_of_digits s hdig]

lemma iterate_digit_notRecognized_eq (addr : Player → String) (g : GameView)
    (s : String) (hdig : pyIsDigit s = true) (msg : String) :
    iterate addr g (.normal (.bytes s.data) (.notRecognized msg)) =
      (promptActs g ++ [.engineMove g.turn s,
        .send g.turn ("ERROR: Player not recognized: " ++ msg ++ "\n")], none) := by
  have hne : s.data ≠ [] := ((pyIsDigit_iff s).mp hdig).1
  cases hd : s.data with
  | nil => exact absurd hd hne
  | cons c cs =>
    have hstr : pyStrip (String.mk (c :: cs)) = s := by
      rw [← hd]
      exact pyStrip_of_digits s hdig
    simp [iterate, recv_with_timeout, hstr, parseMsg_of_digits s hdig]

lemma iterate_digit_gameOver_eq (addr : Player → String) (g : GameView)
    (s : String) (hdig : pyIsDigit s = true) (msg : String) :
    iterate addr g (.normal (.bytes s.data) (.gameOver msg)) =
      (promptActs g ++ [.engineMove g.turn s,
        .send .p1 (g.board ++ "\n"), .send .p1 ("GAME OVER: " ++ msg ++ "\n"),
        .send .p2 (g.board ++ "\n"), .send .p2 ("GAME OVER: " ++ msg ++ "\n")],
        none) := by
  have hne : s.data ≠ [] := ((pyIsDigit_iff s).mp hdig).1
  cases hd : s.data with
  | nil => exact absurd hd hne
  | cons c cs =>
    have hstr : pyStrip (String.mk (c :: cs)) = s := by
      rw [← hd]
      exact pyStrip_of_digits s hdig
    simp [iterate, recv_with_timeout, hstr, parseMsg_of_digits s hdig]

lemma iterate_digit_accepted_live_eq (addr : Player → String) (g : GameView)
    (s : String) (hdig : pyIsDigit s = true) (g2 : GameView)
    (hw : g2.winner = none) :
    iterate addr g (.normal (.bytes s.data) (.accepted g2)) =
      (promptActs g ++ [.engineMove g.turn s] ++ postBoardActs g2, some g2) := by
  have hne : s.data ≠ [] := ((pyIsDigit_iff s).mp hdig).1
  cases hd : s.data with
  | nil => exact absurd hd hne
  | cons c cs =>
    have hstr : pyStrip (String.mk (c :: cs)) = s := by
      rw [← hd]
      exact pyStrip_of_digits s hdig
    simp [iterate, recv_with_timeout, hstr, parseMsg_of_digits s hdig, hw]

lemma iterate_digit_draw_eq (addr : Player → String) (g : GameView)
    (s : String) (hdig : pyIsDigit s = true) (g2 : GameView)
    (hw : g2.winner = some "Draw") :
    iterate addr g (.normal (.bytes s.data) (.accepted g2)) =
      (promptActs g ++ [.engineMove g.turn s] ++ postBoardActs g2 ++
        [.send .p1 "Game over! It's a draw.\n",
         .send .p2 "Game over! It's a draw.\n"], none) := by
  have hne : s.data ≠ [] := ((pyIsDigit_iff s).mp hdig).1
  cases hd : s.data with
  | nil => exact absurd hd hne
  | cons c cs =>
    have hstr : pyStrip (String.mk (c :: cs)) = s := by
      rw [← hd]
      exact pyStrip_of_digits s hdig
    simp [iterate, recv_with_timeout, hstr, parseMsg_of_digits s hdig, hw]

lemma iterate_digit_decisive_eq (addr : Player → String) (g : GameView)
    (s : String) (hdig : pyIsDigit s = true) (g2 : GameView) (w : String)
    (hw : g2.winner = some w) (hnd : w ≠ "Draw") :
    iterate addr g (.normal (.bytes s.data) (.accepted g2)) =
      (promptActs g ++ [.engineMove g.turn s] ++ postBoardActs g2 ++
        [.send .p1 (if g2.symbols .p1 = w then "You win!\n" else "You lose!\n"),
         .send .p2 (if g2.symbols .p2 = w then "You win!\n" else "You lose!\n")],
        none) := by
  have hne : s.data ≠ [] := ((pyIsDigit_iff s).mp hdig).1
  cases hd : s.data with
  | nil => exact absurd hd hne
  | cons c cs =>
    have hstr : pyStrip (String.mk (c :: cs)) = s := by
      rw [← hd]
      exact pyStrip_of_digits s hdig
    simp [iterate, recv_with_timeout, hstr, parseMsg_of_digits s hdig, hw, hnd]

/-! ## Claim theorems -/

/-- C4: for every call to `recv_with_timeout(connection, timeoutSeconds)`:
reading zero bytes signals PeerDisconnected; exceeding the deadline signals
TimeoutWaitingForPlayer carrying the elapsed bound; any other I/O failure
signals PeerDisconnected; on success the result is the received bytes
decoded as text with leading and trailing whitespace trimmed. -/
theorem recv_translates_outcomes (sock : Conn) (t : Nat) :
    ((recv_with_timeout sock t (.bytes [])).1 =
      .error (.playerDisconnected sock.addr "client closed connection"))
  ∧ (∀ d : List Char, d ≠ [] →
      (recv_with_timeout sock t (.bytes d)).1 = .ok (pyStrip (String.mk d)))
  ∧ ((recv_with_timeout sock t .timedOut).1 =
      .error (.timeoutWaitingPlayer sock.addr
        ("Timed out after " ++ toString t ++ " seconds")))
  ∧ (∀ m, (recv_with_timeout sock t (.ioError m)).1 =
      .error (.playerDisconnected sock.addr ("recv failed: " ++ m))) := by
  refine ⟨rfl, ?_, rfl, fun m => rfl⟩
  intro d hd
  cases d with
  | nil => exact absurd rfl hd
  | cons c cs => rfl

theorem recv_translates_outcomes_witness :
    (recv_with_timeout ⟨"('127.0.0.1', 50001)", some 30⟩ 30
      (.bytes (" 7 ".data))).1 = .ok "7" := by
  have h := (recv_translates_outcomes ⟨"('127.0.0.1', 50001)", some 30⟩ 30).2.1
    (" 7 ".data) (by decide)
  have h2 : pyStrip (String.mk (" 7 ".data)) = "7" := by decide
  rw [h, h2]

/-- C5: on every exit path of `recv_with_timeout` (success, timeout, or
any failure), the connection's read deadline is cleared before returning,
so the connection reverts to blocking-forever semantics for any later
operation. -/
theorem recv_always_clears_deadline (sock : Conn) (t : Nat) (raw : RecvRaw) :
    ((recv_with_timeout sock t raw).2).deadline = none ∧
    (recv_with_timeout sock t raw).2 = { sock with deadline := none } :=
  ⟨rfl, rfl⟩

/-- C1: for every loop-level terminal failure in a session
(TimeoutWaitingForPlayer, PlayerQuit, or PeerDisconnected — whether from a
zero-byte read or another receive failure), the session immediately
terminates (closing both connections) after notifying the surviving
player, where the surviving player is whichever of p1/p2 is not identified
by the failure's endpoint identity (the two endpoints being distinct), and
the notice is respectively `OPPONENT_TIMEOUT - you win`,
`OPPONENT_QUIT - you win`, or `OPPONENT_DISCONNECTED - you win`. -/
theorem terminal_failures_notify_survivor (addr : Player → String)
    (h : addr Player.p1 ≠ addr Player.p2) (g : GameView) (o : MoveOutcome)
    (rest : List IterEv) :
    (handle_game addr g .ok (.normal .timedOut o :: rest) =
      (startActs g ++ promptActs g ++
        [.send g.turn.other "OPPONENT_TIMEOUT - you win\n",
         .close .p1, .close .p2], true))
  ∧ (∀ m, handle_game addr g .ok (.normal (.ioError m) o :: rest) =
      (startActs g ++ promptActs g ++
        [.send g.turn.other "OPPONENT_DISCONNECTED - you win\n",
         .close .p1, .close .p2], true))
  ∧ (handle_game addr g .ok (.normal (.bytes []) o :: rest) =
      (startActs g ++ promptActs g ++
        [.send g.turn.other "OPPONENT_DISCONNECTED - you win\n",
         .close .p1, .close .p2], true))
  ∧ (∀ d : List Char, d ≠ [] → pyUpper (pyStrip (String.mk d)) = "QUIT" →
      handle_game addr g .ok (.normal (.bytes d) o :: rest) =
      (startActs g ++ promptActs g ++
        [.send g.turn.other "OPPONENT_QUIT - you win\n",
         .close .p1, .close .p2], true)) := by
  refine ⟨?_, fun m => ?_, ?_, fun d hne hq => ?_⟩
  · have hl := loopGame_cons_halt addr g _ rest _ (iterate_timeout_eq addr h g o)
    simp [handle_game, hl, List.append_assoc]
  · have hl := loopGame_cons_halt addr g _ rest _ (iterate_ioError_eq addr h g o m)
    simp [handle_game, hl, List.append_assoc]
  · have hl := loopGame_cons_halt addr g _ rest _ (iterate_closed_eq addr h g o)
    simp [handle_game, hl, List.append_assoc]
  · have hl := loopGame_cons_halt addr g _ rest _ (iterate_quit_eq addr h g o d hne hq)
    simp [handle_game, hl, List.append_assoc]

theorem terminal_failures_notify_survivor_witness :
    handle_game addr0 view0 .ok [.normal .timedOut (.gameOver "m")] =
      (startActs view0 ++ promptActs view0 ++
        [.send view0.turn.other "OPPONENT_TIMEOUT - you win\n",
         .close .p1, .close .p2], true) :=
  (terminal_failures_notify_survivor addr0 (by decide) view0 (.gameOver "m") []).1

/-- C2: for every game state (any view reached by a live run of the loop)
and every received message equal to `QUIT` in any letter case (surrounding
whitespace trimmed by receive), the session signals PlayerQuit for the
current player, ends the session with the opponent notified
`OPPONENT_QUIT - you win`, and closes both connections. -/
theorem quit_terminates_session (addr : Player → String)
    (h : addr Player.p1 ≠ addr Player.p2) (g : GameView) (pre : List IterEv)
    (acts : List Act) (g2 : GameView)
    (hrun : loopGame addr g pre = (acts, some g2))
    (d : List Char) (hne : d ≠ []) (o : MoveOutcome)
    (hq : pyUpper (pyStrip (String.mk d)) = "QUIT") :
    handle_game addr g .ok (pre ++ [.normal (.bytes d) o]) =
      (startActs g ++ acts ++ promptActs g2 ++
        [.send g2.turn.other "OPPONENT_QUIT - you win\n",
         .close .p1, .close .p2], true) := by
  have hi := iterate_quit_eq addr h g2 o d hne hq
  have hl := loopGame_cons_halt addr g2 _ [] _ hi
  have happ := loopGame_append_live addr g pre hrun [.normal (.bytes d) o]
  rw [hl] at happ
  simp [handle_game, happ, List.append_assoc]

theorem quit_terminates_session_witness :
    handle_game addr0 view0 .ok [.normal (.bytes (" qUiT ".data)) (.gameOver "m")] =
      (startActs view0 ++ [] ++ promptActs view0 ++
        [.send view0.turn.other "OPPONENT_QUIT - you win\n",
         .close .p1, .close .p2], true) :=
  quit_terminates_session addr0 (by decide) view0 [] [] view0 rfl
    (" qUiT ".data) (by decide) (.gameOver "m") (by decide)


lemma startsWith_move_ne_quit (u : String)
    (hm : pyStartsWith "MOVE " u = true) : u ≠ "QUIT" := by
  intro e
  rw [e] at hm
  exact absurd hm (by decide)

lemma parseMsg_badFormat (s : String) (hnq : pyUpper s ≠ "QUIT")
    (hnm : pyStartsWith "MOVE " (pyUpper s) = false)
    (hnd : pyIsDigit s = false) :
    parseMsg s = .badFormat := by
  simp [parseMsg, hnq, hnm, hnd]

/-- C3: for every received message (a trimmed text `s` delivered from
nonempty bytes): a message of the form `MOVE <token>` that does not
consist of exactly two whitespace-separated tokens with an all-digit
second token signals InvalidMessage, reported inline to the current
player with the session continuing and the turn unchanged; a bare
all-digit token is accepted directly as the move argument; any other
message is not a protocol failure and yields an inline
`Invalid move format` notice to the current player, re-looping without
consuming a turn. -/
theorem message_parsing_discipline (addr : Player → String) (g : GameView)
    (o : MoveOutcome) (d : List Char) (hne : d ≠ []) (s : String)
    (hd : pyStrip (String.mk d) = s) :
    (pyStartsWith "MOVE " (pyUpper s) = true →
      ((pySplit s).length ≠ 2 ∨ pyIsDigit ((pySplit s).getD 1 "") = false) →
      parseMsg s = .malformedMove ∧
      iterate addr g (.normal (.bytes d) o) =
        (promptActs g ++
          [.send g.turn ("INVALID_MESSAGE: " ++ ("Malformed MOVE: " ++ s) ++ ": " ++
            addr g.turn ++ "\n")], some g))
  ∧ (pyIsDigit s = true → parseMsg s = .moveArg s)
  ∧ (pyUpper s ≠ "QUIT" → pyStartsWith "MOVE " (pyUpper s) = false →
      pyIsDigit s = false →
      parseMsg s = .badFormat ∧
      iterate addr g (.normal (.bytes d) o) =
        (promptActs g ++ [.send g.turn ("Invalid move format: " ++ s ++ "\n")],
          some g)) := by
  refine ⟨fun hm hbad => ?_, fun hdig => parseMsg_of_digits s hdig,
    fun hnq hnm hnd => ?_⟩
  · have hpm := parseMsg_malformed s (startsWith_move_ne_quit _ hm) hm hbad
    exact ⟨hpm, iterate_malformed_eq addr g o d hne s hd hpm⟩
  · have hpf := parseMsg_badFormat s hnq hnm hnd
    exact ⟨hpf, iterate_badFormat_eq addr g o d hne s hd hpf⟩

theorem message_parsing_discipline_witness :
    parseMsg "MOVE x" = .malformedMove ∧
    iterate addr0 view0 (.normal (.bytes ("MOVE x".data)) (.gameOver "m")) =
      (promptActs view0 ++
        [.send view0.turn ("INVALID_MESSAGE: " ++ ("Malformed MOVE: " ++ "MOVE x") ++
          ": " ++ addr0 view0.turn ++ "\n")], some view0) :=
  (message_parsing_discipline addr0 view0 (.gameOver "m") ("MOVE x".data)
    (by decide) "MOVE x" (by decide)).1 (by decide) (by decide)

/-- C6: after a legal, non-terminal-error move, if the Engine reports a
winner: on a draw both players receive a draw notice; on a decisive win
the player whose assigned symbol matches the winner value receives
`You win!` and the other player receives `You lose!`; in either case the
session terminates (the loop halts at once, ignoring later events). -/
theorem winner_reporting (addr : Player → String) (g : GameView)
    (s : String) (hdig : pyIsDigit s = true) (g2 : GameView)
    (rest : List IterEv) :
    (g2.winner = some "Draw" →
      loopGame addr g (.normal (.bytes s.data) (.accepted g2) :: rest) =
        (promptActs g ++ [.engineMove g.turn s] ++ postBoardActs g2 ++
          [.send .p1 "Game over! It's a draw.\n",
           .send .p2 "Game over! It's a draw.\n"], none))
  ∧ (∀ (w : String) (pw : Player), g2.winner = some w → w ≠ "Draw" →
      g2.symbols pw = w → g2.symbols pw.other ≠ w →
      loopGame addr g (.normal (.bytes s.data) (.accepted g2) :: rest) =
        (promptActs g ++ [.engineMove g.turn s] ++ postBoardActs g2 ++
          winNotices pw, none)) := by
  constructor
  · intro hw
    exact loopGame_cons_halt addr g _ rest _ (iterate_digit_draw_eq addr g s hdig g2 hw)
  · intro w pw hw hnd hpw hopp
    have hi := iterate_digit_decisive_eq addr g s hdig g2 w hw hnd
    have hnot : winNotices pw =
        [Act.send .p1 (if g2.symbols .p1 = w then "You win!\n" else "You lose!\n"),
         Act.send .p2 (if g2.symbols .p2 = w then "You win!\n" else "You lose!\n")] := by
      cases pw with
      | p1 =>
        have hopp2 : g2.symbols Player.p2 ≠ w := hopp
        rw [winNotices, if_pos hpw, if_neg hopp2]
      | p2 =>
        have hopp1 : g2.symbols Player.p1 ≠ w := hopp
        rw [winNotices, if_pos hpw, if_neg hopp1]
    rw [hnot]
    exact loopGame_cons_halt addr g _ rest _ hi

theorem winner_reporting_witness :
    loopGame addr0 view0 [.normal (.bytes ("4".data)) (.accepted view1)] =
      (promptActs view0 ++ [.engineMove view0.turn "4"] ++ postBoardActs view1 ++
        winNotices .p1, none) :=
  (winner_reporting addr0 view0 "4" (by decide) view1 []).2 "X" .p1
    rfl (by decide) rfl (by decide)

/-- C7: on every session termination path (win, draw, quit, disconnect,
timeout, unrecognized-player, or unexpected internal failure — including a
disconnect during the initial greeting), both connections are closed
unconditionally: the action trace always ends with the two close attempts,
each wrapped in the code so a failure to close one cannot prevent closing
the other (close outcomes do not influence the modelled control flow). -/
theorem session_always_closes_both (addr : Player → String) (g : GameView)
    (greet : GreetEv) (evs : List IterEv)
    (h : (handle_game addr g greet evs).2 = true) :
    ∃ tr, (handle_game addr g greet evs).1 =
      tr ++ [Act.close .p1, Act.close .p2] := by
  cases greet with
  | failFirst => exact ⟨[], rfl⟩
  | failSecond => exact ⟨[.send .p1 (startMsg g .p1)], rfl⟩
  | ok =>
    rcases hl : loopGame addr g evs with ⟨acts, r⟩
    cases r with
    | none =>
      refine ⟨startActs g ++ acts, ?_⟩
      simp [handle_game, hl, List.append_assoc]
    | some g2 =>
      rw [handle_game] at h
      rw [hl] at h
      simp at h
  
theorem session_always_closes_both_witness :
    ∃ tr, (handle_game addr0 view0 .ok [.normal .timedOut (.gameOver "m")]).1 =
      tr ++ [Act.close .p1, Act.close .p2] :=
  session_always_closes_both addr0 view0 .ok [.normal .timedOut (.gameOver "m")]
    (by decide)

/-- C9: for every received message that is a bare all-digit token, of any
length and any numeric value (e.g. `42` or `007`), the session accepts it
as the move argument and forwards it verbatim to the Game Engine without
performing its own 0-8 range check — whatever the engine then reports, the
engine call with that exact token is in the trace — and range violations
surface only as the Engine's illegal-move outcome, reported inline with
the turn unchanged. -/
theorem digit_tokens_forwarded_to_engine (addr : Player → String) (g : GameView)
    (s : String) (hdig : pyIsDigit s = true) :
    (parseMsg s = .moveArg s)
  ∧ (∀ o : MoveOutcome,
      Act.engineMove g.turn s ∈ (iterate addr g (.normal (.bytes s.data) o)).1)
  ∧ (∀ name msg, iterate addr g (.normal (.bytes s.data) (.illegal name msg)) =
      (promptActs g ++ [.engineMove g.turn s,
        .send g.turn ("ERROR: " ++ name ++ ": " ++ msg ++ "\n")], some g)) := by
  refine ⟨parseMsg_of_digits s hdig, fun o => ?_,
    fun name msg => iterate_digit_illegal_eq addr g s hdig name msg⟩
  cases o with
  | illegal name msg =>
    rw [iterate_digit_illegal_eq addr g s hdig name msg]
    simp
  | notRecognized msg =>
    rw [iterate_digit_notRecognized_eq addr g s hdig msg]
    simp
  | gameOver msg =>
    rw [iterate_digit_gameOver_eq addr g s hdig msg]
    simp
  | accepted g2 =>
    rcases hw : g2.winner with - | w
    · rw [iterate_digit_accepted_live_eq addr g s hdig g2 hw]
      simp
    · by_cases hnd : w = "Draw"
      · subst hnd
        rw [iterate_digit_draw_eq addr g s hdig g2 hw]
        simp
      · rw [iterate_digit_decisive_eq addr g s hdig g2 w hw hnd]
        simp

theorem digit_tokens_forwarded_to_engine_witness :
    Act.engineMove view0.turn "42" ∈
      (iterate addr0 view0 (.normal (.bytes ("42".data)) (.gameOver "m"))).1 :=
  (digit_tokens_forwarded_to_engine addr0 view0 "42" (by decide)).2.1 (.gameOver "m")


lemma twoStepInd {α : Type} {motive : List α → Prop} (h0 : motive [])
    (h1 : ∀ a, motive [a])
    (h2 : ∀ a b l, motive l → motive (a :: b :: l)) : ∀ l, motive l
  | [] => h0
  | [a] => h1 a
  | a :: b :: t => h2 a b t (twoStepInd h0 h1 h2 t)

lemma offerFrom_spec {α : Type} :
    ∀ l : List α, ∀ ss : List (α × α),
      offerFrom [] ss l = (leftover l, ss ++ pairUp l) := by
  refine twoStepInd ?_ ?_ ?_
  · intro ss
    simp [offerFrom, leftover, pairUp]
  · intro a ss
    simp [offerFrom, offer, leftover, pairUp]
  · intro a b l ih ss
    have e1 : offer ([] : List α) a = ([a], none) := rfl
    have e2 : offer [a] b = ([], some (a, b)) := rfl
    simp only [offerFrom, e1, e2, Option.toList, List.append_nil]
    rw [ih (ss ++ [(a, b)])]
    simp [leftover, pairUp]

lemma pairUp_flatten {α : Type} :
    ∀ l : List α, ((pairUp l).flatMap fun p => [p.1, p.2]) ++ leftover l = l := by
  refine twoStepInd ?_ ?_ ?_
  · rfl
  · intro a
    rfl
  · intro a b l ih
    simp only [pairUp, leftover, List.flatMap_cons, List.cons_append,
      List.append_assoc]
    simp [ih]

/-- C8: for any two clients offered to the matchmaking queue, exactly one
session is started with them as (p1, p2) in arrival order; in general the
locked `offer` pairs the two oldest waiting connections in FIFO order
(arrivals are paired up consecutively, with at most one client left
waiting), and — for distinct connections — once paired a connection is
never returned to the queue and never paired into two sessions (every
connection occurs in at most one started pair, at most once). -/
theorem matchmaking_fifo_pairing {α : Type} :
    (∀ a b : α, offerAll [a, b] = ([], [(a, b)]))
  ∧ (∀ l : List α, offerAll l = (leftover l, pairUp l))
  ∧ (∀ l : List α, l.Nodup →
      ((offerAll l).2.flatMap fun p => [p.1, p.2]).Nodup) := by
  have hspec : ∀ l : List α, offerAll l = (leftover l, pairUp l) := by
    intro l
    show offerFrom [] [] l = _
    rw [offerFrom_spec l []]
    simp
  refine ⟨fun a b => by rw [hspec]; rfl, hspec, fun l hnd => ?_⟩
  rw [hspec]
  have hsub : List.Sublist ((pairUp l).flatMap fun p => [p.1, p.2]) l := by
    have h := List.sublist_append_left ((pairUp l).flatMap fun p => [p.1, p.2])
      (leftover l)
    rwa [pairUp_flatten l] at h
  exact List.Nodup.sublist hsub hnd

theorem matchmaking_fifo_pairing_witness :
    offerAll [10, 20] = ([], [(10, 20)]) ∧
    ((offerAll [1, 2, 3]).2.flatMap fun p => [p.1, p.2]).Nodup :=
  ⟨(@matchmaking_fifo_pairing Nat).1 10 20,
   (@matchmaking_fifo_pairing Nat).2.2 [1, 2, 3] (by decide)⟩

/-- C10: if sending the `Welcome! Waiting for opponent...` greeting to a
newly accepted connection fails, that connection is closed and is never
appended to the matchmaking queue — the queue is unchanged, no session is
started, and the connection is not in the queue afterwards, so it can
never be paired into a session. -/
theorem welcome_failure_isolates_connection {α : Type} (clients : List α)
    (c : α) (hc : c ∉ clients) :
    client_thread clients c .fail = (clients, none, true)
  ∧ c ∉ (client_thread clients c .fail).1 :=
  ⟨rfl, hc⟩

theorem welcome_failure_isolates_connection_witness :
    client_thread [1, 2] 3 WelcomeEv.fail = ([1, 2], none, true)
  ∧ 3 ∉ (client_thread [1, 2] 3 WelcomeEv.fail).1 :=
  welcome_failure_isolates_connection [1, 2] 3 (by decide)

end XO
